import Mathlib

/-!
Shallow embedding of the service-management repository
(`src/actions/services.ts`, `service-filters.tsx`, and the Prisma
`model Service` quoted in `README.md`), together with theorems settling
the claims about the Query Builder, the CRUD Gateway and the Debounced
Filter Controller.

Conventions of the embedding:
* JavaScript numbers obtained from `parseFloat` are modelled by `JsNum`
  (NaN, signed infinity, or an exact rational) — the claims never depend
  on float rounding, only on NaN-ness, sign and exact decimal values.
* `FormData.get` returns `null` or a string; this is `Option String`.
* The Prisma/MongoDB persistence layer is modelled by a `Db` (the flat
  collection of `Service` documents plus the fresh id counter and the
  current clock). A call that may throw is given an explicit
  `persistFails : Bool` flag: `true` models the `catch` path.
* `findMany` with the built `whereClause` and `orderBy createdAt desc`
  is: filter by the predicate, then a stable sort on `createdAt`
  descending (the query specifies no secondary sort key).
-/

namespace SvcRepo

/-- A JavaScript number as produced by `parseFloat`: NaN, ±Infinity, or a
finite value. A finite value is kept exact as `fin m k`, denoting the
rational `m / 10 ^ k` (the representation `parseFloat` computes is not
reduced; no claim compares two independently computed finite values). -/
inductive JsNum where
  | nan : JsNum
  | posInf : JsNum
  | negInf : JsNum
  | fin : Int → Nat → JsNum
deriving DecidableEq, Repr

/-- JavaScript `isNaN` on a `parseFloat` result. -/
def JsNum.isNaN : JsNum → Bool
  | JsNum.nan => true
  | _ => false

/-- Numeric value of a list of decimal digit characters. -/
def digitsVal (cs : List Char) : Nat :=
  cs.foldl (fun a c => a * 10 + (c.toNat - 48)) 0

/-- Exponent part of a JS numeric literal: an optional sign followed by
digits; if no digits follow, the exponent part is not consumed and
contributes 0. -/
def expOf (cs : List Char) : Int :=
  match cs with
  | '-' :: t =>
      if (t.takeWhile Char.isDigit).isEmpty then 0
      else -(digitsVal (t.takeWhile Char.isDigit) : Int)
  | '+' :: t =>
      if (t.takeWhile Char.isDigit).isEmpty then 0
      else (digitsVal (t.takeWhile Char.isDigit) : Int)
  | _ =>
      if (cs.takeWhile Char.isDigit).isEmpty then 0
      else (digitsVal (cs.takeWhile Char.isDigit) : Int)

/-- Decimal part of JS `parseFloat` after sign handling: longest prefix
`digits [. digits] [e[sign]digits]`; NaN when no digit is present. The
value `(int.frac) * 10 ^ e` is returned as an integer mantissa over a
power-of-ten denominator. -/
def parseDecimal (cs : List Char) (neg : Bool) : JsNum :=
  let intDigits := cs.takeWhile Char.isDigit
  let rest1 := cs.dropWhile Char.isDigit
  let fracDigits :=
    match rest1 with
    | '.' :: t => t.takeWhile Char.isDigit
    | _ => []
  let rest2 :=
    match rest1 with
    | '.' :: t => t.dropWhile Char.isDigit
    | _ => rest1
  if intDigits.isEmpty && fracDigits.isEmpty then JsNum.nan
  else
    let m0 : Int := (digitsVal (intDigits ++ fracDigits) : Int)
    let m : Int := if neg then -m0 else m0
    let e : Int :=
      match rest2 with
      | 'e' :: t => expOf t
      | 'E' :: t => expOf t
      | _ => 0
    let shift : Int := e - (fracDigits.length : Int)
    if 0 ≤ shift then JsNum.fin (m * (10 : Int) ^ shift.toNat) 0
    else JsNum.fin m (-shift).toNat

/-- Body of `parseFloat` after leading whitespace is skipped: optional
sign, then `Infinity` or a decimal literal. -/
def parseSigned (cs : List Char) : JsNum :=
  match cs with
  | '-' :: t =>
      if "Infinity".toList.isPrefixOf t then JsNum.negInf else parseDecimal t true
  | '+' :: t =>
      if "Infinity".toList.isPrefixOf t then JsNum.posInf else parseDecimal t false
  | _ =>
      if "Infinity".toList.isPrefixOf cs then JsNum.posInf else parseDecimal cs false

/-- JavaScript `parseFloat` on a string: skip leading whitespace, parse
an optional sign and the longest numeric prefix; NaN when none exists. -/
def parseFloat (s : String) : JsNum :=
  parseSigned (s.toList.dropWhile Char.isWhitespace)

/-- Price coercion `parseFloat(formData.get("price") as string)`: `FormData.get`
yields `null` for an absent key, and `parseFloat(null)` coerces the
argument to the string `"null"`, giving NaN. -/
def parsePrice (v : Option String) : JsNum :=
  match v with
  | none => JsNum.nan
  | some s => parseFloat s

/-- A stored `Service` document (the `interface Service` of
`service-form.tsx` / the Prisma `model Service` of `README.md`).
The opaque ObjectId and the timestamps are abstracted to `Nat`. -/
structure Service where
  id : Nat
  name : String
  description : String
  price : JsNum
  isActive : Bool
  isFeatured : Bool
  createdAt : Nat
  updatedAt : Nat
deriving DecidableEq, Repr

/-- The `FilterActive` type of `src/lib/types/services.ts`: a wrapper
around the status-filter string `"true" | "false" | "all"`. -/
structure FilterActive where
  isActive : String
deriving DecidableEq, Repr

/-- Test whether the second list occurs as a contiguous sublist of the first. -/
def hasSubstr : List Char → List Char → Bool
  | [], pat => pat.isEmpty
  | c :: t, pat => pat.isPrefixOf (c :: t) || hasSubstr t pat

/-- MongoDB/Prisma `{ contains: pat, mode: "insensitive" }` applied to
field value `hay`: case-insensitive substring test (simple per-character
case folding). -/
def containsCI (hay pat : String) : Bool :=
  hasSubstr (hay.toList.map Char.toLower) (pat.toList.map Char.toLower)

/-- JavaScript `String.prototype.trim`: strip leading and trailing
whitespace. -/
def jsTrim (s : String) : String :=
  String.mk (((s.toList.dropWhile Char.isWhitespace).reverse.dropWhile Char.isWhitespace).reverse)

/-- The `whereClause` built by `getServices`: a status conjunct (added
unless the filter is `"all"`) AND an `OR` of two case-insensitive
`contains` conjuncts (added when the search term is truthy and not
whitespace-only; note the `contains` uses the **untrimmed** term). -/
def matchesWhere (searchTerm : Option String) (filterIsActive : FilterActive) (r : Service) : Bool :=
  (if filterIsActive.isActive != "all" then r.isActive == (filterIsActive.isActive == "true")
   else true)
  &&
  (match searchTerm with
   | some s =>
       if s != "" && jsTrim s != "" then containsCI r.name s || containsCI r.description s
       else true
   | none => true)

/-- Sort relation of `orderBy: { createdAt: "desc" }`: most recent
first. No secondary key appears in the query. -/
def byCreatedAtDesc (a b : Service) : Prop := b.createdAt ≤ a.createdAt

instance : DecidableRel byCreatedAtDesc := fun a b => Nat.decLe b.createdAt a.createdAt

instance : IsTotal Service byCreatedAtDesc := ⟨fun a b => Nat.le_total b.createdAt a.createdAt⟩

instance : IsTrans Service byCreatedAtDesc := ⟨fun _ _ _ h1 h2 => Nat.le_trans h2 h1⟩

/-- The persistence layer: the flat collection of Service documents,
the next fresh id (MongoDB assigns ObjectIds at insertion), and the
current clock used for `@default(now())` / `@updatedAt`. -/
structure Db where
  rows : List Service
  nextId : Nat
  now : Nat
deriving DecidableEq, Repr

/-- Result of a mutating server action: the function either falls off
the end (JS `undefined`, here `success`) or returns an
`{ error: string }` object. -/
inductive ActionResult where
  | success : ActionResult
  | error : String → ActionResult
deriving DecidableEq, Repr

/-- The action `getServices` of `src/actions/services.ts`: build the `whereClause`,
run `findMany` ordered by `createdAt` descending, and return `[]` from
the `catch` block on persistence failure. -/
def getServices (db : Db) (persistFails : Bool) (searchTerm : Option String)
    (filterIsActive : FilterActive) : List Service :=
  if persistFails then []
  else List.insertionSort byCreatedAtDesc (db.rows.filter (matchesWhere searchTerm filterIsActive))

/-- The action `getService` of `src/actions/services.ts`: `findUnique` by id
(`none` when absent), or the `{ error: ... }` object from the `catch`
block on persistence failure. -/
def getService (db : Db) (persistFails : Bool) (id : Nat) : Except String (Option Service) :=
  if persistFails then Except.error "Failed to get service"
  else Except.ok (db.rows.find? (fun r => r.id == id))

/-- The five form fields as read by `formData.get`: `null` (absent) or
a string each. -/
structure FormInput where
  name : Option String
  description : Option String
  price : Option String
  isActive : Option String
  isFeatured : Option String
deriving DecidableEq, Repr

/-- JS falsiness of a `FormData.get` result: `null` or `""`
(the `!name` / `!description` checks). -/
def isFalsyStr (v : Option String) : Bool :=
  match v with
  | none => true
  | some s => s == ""

/-- The action `createService` of `src/actions/services.ts`: coerce the form
fields (`price` via `parseFloat`, the two flags via `=== "true"`),
reject when `!name || !description || isNaN(price)`, then insert a new
document; Prisma fills `id`, and per the schema `createdAt = now` and
`updatedAt = now`. The `catch` path returns the generic error. -/
def createService (db : Db) (persistFails : Bool) (input : FormInput) : ActionResult × Db :=
  let price := parsePrice input.price
  let isActive := input.isActive == some "true"
  let isFeatured := input.isFeatured == some "true"
  if isFalsyStr input.name || isFalsyStr input.description || price.isNaN then
    (ActionResult.error "All fields are required and price must be a valid number", db)
  else if persistFails then
    (ActionResult.error "Failed to create service", db)
  else
    (ActionResult.success,
      { rows := db.rows ++ [{ id := db.nextId,
                              name := input.name.getD "",
                              description := input.description.getD "",
                              price := price,
                              isActive := isActive,
                              isFeatured := isFeatured,
                              createdAt := db.now,
                              updatedAt := db.now }],
        nextId := db.nextId + 1,
        now := db.now })

/-- The action `updateService` of `src/actions/services.ts`: same coercion and
validation as `createService`; `prisma.service.update` throws when the
id does not exist (caught into the generic error), otherwise replaces
the five mutable fields and refreshes `updatedAt`. -/
def updateService (db : Db) (persistFails : Bool) (id : Nat) (input : FormInput) :
    ActionResult × Db :=
  let price := parsePrice input.price
  let isActive := input.isActive == some "true"
  let isFeatured := input.isFeatured == some "true"
  if isFalsyStr input.name || isFalsyStr input.description || price.isNaN then
    (ActionResult.error "All fields are required and price must be a valid number", db)
  else if persistFails || db.rows.all (fun r => !(r.id == id)) then
    (ActionResult.error "Failed to update service", db)
  else
    (ActionResult.success,
      { db with rows := db.rows.map (fun r =>
          if r.id == id then
            { r with name := input.name.getD "",
                     description := input.description.getD "",
                     price := price,
                     isActive := isActive,
                     isFeatured := isFeatured,
                     updatedAt := db.now }
          else r) })

/-- The action `deleteService` of `src/actions/services.ts`:
`prisma.service.delete` throws when the id does not exist (caught into
the generic error), otherwise removes the document. -/
def deleteService (db : Db) (persistFails : Bool) (id : Nat) : ActionResult × Db :=
  if persistFails then (ActionResult.error "Failed to delete service", db)
  else if db.rows.any (fun r => r.id == id) then
    (ActionResult.success, { db with rows := db.rows.filter (fun r => !(r.id == id)) })
  else
    (ActionResult.error "Failed to delete service", db)

/-! ### Debounced Filter Controller (`service-filters.tsx`)

The component keeps `localSearchTerm` (the staged value), receives the
committed value `searchTerm` from the URL, and runs a debounce effect:
on every change of the staged or committed value the previous
`setTimeout` is cleared (the effect cleanup) and a new one is scheduled
1500 ms out, whose callback commits the captured staged value via
`router.push` — but only when the captured staged value differs from
the captured committed value. A keystroke that does not change the
staged value causes no re-render and so leaves the timer alone. After a
commit the value in the URL equals the staged value, so the rescheduled
guard of that timer is false; the model therefore simply clears the timer. -/

/-- State of `ServiceFilters`: the staged value (`localSearchTerm`), the
committed value (the `searchTerm` prop from the URL) and the pending
`setTimeout`, recorded as its fire time together with the staged and
committed values captured by the effect closure. -/
structure DebounceState where
  staged : String
  committed : String
  pending : Option (Nat × String × String)
deriving DecidableEq, Repr

/-- Fire the pending timer if it is due at time `t`: the callback
commits the captured staged value exactly when it differs from the
captured committed value. Returns the new state and the commits (fire
time, committed value) that occurred. -/
def fireDue (s : DebounceState) (t : Nat) : DebounceState × List (Nat × String) :=
  match s.pending with
  | some (ft, cs, cc) =>
      if ft ≤ t then
        if cs ≠ cc then
          ({ staged := s.staged, committed := cs, pending := none }, [(ft, cs)])
        else ({ s with pending := none }, [])
      else (s, [])
  | none => (s, [])

/-- Keystroke handling (`handleSearchChange`) at time `t`: an unchanged value causes no
re-render; a changed value updates the staged value, clears the previous
timer (effect cleanup) and schedules a new one 1500 ms out capturing the
current staged and committed values. -/
def keystroke (s : DebounceState) (t : Nat) (v : String) : DebounceState :=
  if v = s.staged then s
  else { staged := v, committed := s.committed, pending := some (t + 1500, v, s.committed) }

/-- Run a time-ordered list of keystrokes, firing any due timer before
each one; returns the final state and the commit trace. -/
def runDebounce (s : DebounceState) : List (Nat × String) → DebounceState × List (Nat × String)
  | [] => (s, [])
  | (t, v) :: rest =>
      let p1 := fireDue s t
      let s2 := keystroke p1.1 t v
      let p2 := runDebounce s2 rest
      (p2.1, p1.2 ++ p2.2)

/-- The commit trace of a keystroke sequence, observed up to time
`endTime` (any timer still pending then is given the chance to fire). -/
def debounceTrace (init : DebounceState) (events : List (Nat × String)) (endTime : Nat) :
    List (Nat × String) :=
  let p := runDebounce init events
  p.2 ++ (fireDue p.1 endTime).2

/-! ## Theorems -/

/-- C4: when the persistence layer fails during `getServices`, the
operation returns the empty sequence — the `catch` block swallows the
error — for every search term and status filter. -/
theorem readMany_failure_returns_empty (db : Db) (s : Option String) (f : FilterActive) :
    getServices db true s f = [] := rfl

/-- C1: a stored record appears in `getServices` under status filter
`f ∈ {"all", "true", "false"}` (with no search term) iff `f = "all"` or
the `isActive` field of the record equals the boolean parsed from `f`. -/
theorem readMany_status_filter (db : Db) (r : Service) (f : String)
    (hf : f = "all" ∨ f = "true" ∨ f = "false") :
    r ∈ getServices db false none ⟨f⟩ ↔
      r ∈ db.rows ∧ (f = "all" ∨ r.isActive = (f == "true")) := by
  rcases hf with rfl | rfl | rfl <;>
    simp [getServices, List.mem_insertionSort, List.mem_filter, matchesWhere]

/-- C1 witness: instantiation at the filter `"false"` over a two-record
store. -/
theorem readMany_status_filter_witness :
    (("false" : String) = "all" ∨ ("false" : String) = "true" ∨ ("false" : String) = "false")
    ∧ (Service.mk 1 "A" "d" JsNum.nan false false 5 5
          ∈ getServices ⟨[Service.mk 1 "A" "d" JsNum.nan false false 5 5,
                          Service.mk 2 "B" "d" JsNum.nan true false 6 6], 3, 9⟩ false none ⟨"false"⟩
        ↔ Service.mk 1 "A" "d" JsNum.nan false false 5 5
            ∈ [Service.mk 1 "A" "d" JsNum.nan false false 5 5,
               Service.mk 2 "B" "d" JsNum.nan true false 6 6]
          ∧ (("false" : String) = "all"
              ∨ (Service.mk 1 "A" "d" JsNum.nan false false 5 5).isActive
                  = (("false" : String) == "true"))) :=
  ⟨by decide,
   readMany_status_filter ⟨[Service.mk 1 "A" "d" JsNum.nan false false 5 5,
                            Service.mk 2 "B" "d" JsNum.nan true false 6 6], 3, 9⟩
     (Service.mk 1 "A" "d" JsNum.nan false false 5 5) "false" (by decide)⟩

/-- C2: with status filter `"all"`, a stored record appears in
`getServices` for search term `s` iff `s` is absent, or is empty or
whitespace-only after trimming, or its (untrimmed) text occurs
case-insensitively in the name or description of the record; the status and
text constraints are conjoined and the two field checks disjoined. -/
theorem readMany_search_filter (db : Db) (r : Service) (s : Option String) :
    r ∈ getServices db false s ⟨"all"⟩ ↔
      r ∈ db.rows ∧
        (s = none ∨ ∃ str, s = some str ∧
          (jsTrim str = "" ∨ containsCI r.name str = true ∨ containsCI r.description str = true)) := by
  cases s with
  | none => simp [getServices, List.mem_insertionSort, List.mem_filter, matchesWhere]
  | some str =>
      by_cases h : jsTrim str = ""
      · simp [getServices, List.mem_insertionSort, List.mem_filter, matchesWhere, h]
      · have hne : str ≠ "" := by
          intro he
          rw [he] at h
          exact h (by decide)
        simp [getServices, List.mem_insertionSort, List.mem_filter, matchesWhere, h, hne]

/-- C10: when the search term has non-whitespace content, the text
constraint matches the **untrimmed** term verbatim against name and
description (trimming only decides whether a text constraint exists). -/
theorem readMany_matches_untrimmed (db : Db) (r : Service) (s : String)
    (h : jsTrim s ≠ "") :
    r ∈ getServices db false (some s) ⟨"all"⟩ ↔
      r ∈ db.rows ∧ (containsCI r.name s = true ∨ containsCI r.description s = true) := by
  have hne : s ≠ "" := by
    intro he
    rw [he] at h
    exact h (by decide)
  simp [getServices, List.mem_insertionSort, List.mem_filter, matchesWhere, h, hne]

/-- C10 witness: with the term `" web "`, a record whose name contains
`" web "` with the surrounding spaces is matched, while a record whose
name only contains `"web"` without them is not. -/
theorem readMany_matches_untrimmed_witness :
    (jsTrim " web " ≠ "")
    ∧ (Service.mk 1 "my web site" "d" JsNum.nan true false 5 5
          ∈ getServices ⟨[Service.mk 1 "my web site" "d" JsNum.nan true false 5 5,
                          Service.mk 2 "webshop" "d" JsNum.nan true false 6 6], 3, 9⟩
              false (some " web ") ⟨"all"⟩
        ↔ Service.mk 1 "my web site" "d" JsNum.nan true false 5 5
            ∈ [Service.mk 1 "my web site" "d" JsNum.nan true false 5 5,
               Service.mk 2 "webshop" "d" JsNum.nan true false 6 6]
          ∧ (containsCI "my web site" " web " = true ∨ containsCI "d" " web " = true)) :=
  ⟨by decide,
   readMany_matches_untrimmed
     ⟨[Service.mk 1 "my web site" "d" JsNum.nan true false 5 5,
       Service.mk 2 "webshop" "d" JsNum.nan true false 6 6], 3, 9⟩
     (Service.mk 1 "my web site" "d" JsNum.nan true false 5 5) " web " (by decide)⟩

/-- C3 counterexample: the query orders by `createdAt` descending only;
on a store holding two records with equal `createdAt` and ids 1, 2 in
stored order, the result is *not* ordered with ties broken by `id`
descending (the stable sort leaves the ids ascending). -/
theorem readMany_order_counterexample :
    ¬ List.Pairwise (fun a b : Service =>
          b.createdAt < a.createdAt ∨ (a.createdAt = b.createdAt ∧ b.id < a.id))
        (getServices ⟨[Service.mk 1 "A" "d" JsNum.nan true false 5 5,
                       Service.mk 2 "B" "d" JsNum.nan true false 5 5], 3, 9⟩
          false none ⟨"all"⟩) := by decide

/-- C3 amended: the result of `getServices` is always sorted by
`createdAt` descending; no tie-break on `id` is imposed, so the order
among records sharing a `createdAt` is just the underlying stable
order. -/
theorem readMany_sorted_createdAt_desc (db : Db) (pf : Bool) (s : Option String)
    (f : FilterActive) :
    List.Pairwise (fun a b : Service => b.createdAt ≤ a.createdAt)
      (getServices db pf s f) := by
  cases pf with
  | false => exact List.sorted_insertionSort byCreatedAtDesc _
  | true => simp [getServices]

/-- C5 counterexample: the input `{name:"a", description:"x",
price:"-5"}` has a negative price, yet `createService` accepts it — the
code only checks `isNaN(parseFloat(price))`, never non-negativity — so
it returns success and persists the record, where the claim demands a
validation-error result and no write. -/
theorem create_negative_price_counterexample :
    (createService ⟨[], 0, 7⟩ false ⟨some "a", some "x", some "-5", none, none⟩).1
        = ActionResult.success
    ∧ (createService ⟨[], 0, 7⟩ false ⟨some "a", some "x", some "-5", none, none⟩).2.rows
        ≠ [] := by decide

/-- C5 amended: `createService` and `updateService` return the
validation-error result and leave the store unchanged exactly when the
name is absent or empty, the description is absent or empty, or the
price fails to parse as a number (`parseFloat` yields NaN); finiteness
and non-negativity of the price are not checked. -/
theorem create_update_validation (db : Db) (pf : Bool) (i : Nat) (inp : FormInput) :
    ((createService db pf inp).1
          = ActionResult.error "All fields are required and price must be a valid number"
        ∧ (createService db pf inp).2 = db
        ∧ (updateService db pf i inp).1
            = ActionResult.error "All fields are required and price must be a valid number"
        ∧ (updateService db pf i inp).2 = db)
      ↔ (isFalsyStr inp.name || isFalsyStr inp.description || (parsePrice inp.price).isNaN)
          = true := by
  by_cases hv :
      (isFalsyStr inp.name || isFalsyStr inp.description || (parsePrice inp.price).isNaN) = true
  · simp [createService, updateService, hv]
  · cases pf with
    | false =>
        by_cases hex : db.rows.all (fun r => !(r.id == i)) = true
        · simp [createService, updateService, hv, hex]
        · simp [createService, updateService, hv, hex]
    | true => simp [createService, updateService, hv]

/-- C6 counterexample: a create request with `isActive` absent persists
a record with `isActive = false` — the coercion is
`formData.get("isActive") === "true"`, and the field being supplied
explicitly means the schema default `true` never applies — where the
claim says the created record has `isActive = true`. -/
theorem create_isActive_default_counterexample :
    (createService ⟨[], 0, 7⟩ false ⟨some "a", some "b", some "10", none, none⟩).1
        = ActionResult.success
    ∧ (createService ⟨[], 0, 7⟩ false
          ⟨some "a", some "b", some "10", none, none⟩).2.rows.map Service.isActive
        = [false]
    ∧ (createService ⟨[], 0, 7⟩ false
          ⟨some "a", some "b", some "10", none, none⟩).2.rows.map Service.isActive
        ≠ [true] := by decide

/-- C6 amended: on a successful create, whenever `isActive` is absent or
anything other than the literal `"true"`, the created record has
`isActive = false` (not `true`), and likewise `isFeatured = false`: both
flags are coerced by comparison with `"true"`, so both default to
`false`. -/
theorem create_flag_defaults (db : Db) (inp : FormInput)
    (hA : inp.isActive ≠ some "true") (hF : inp.isFeatured ≠ some "true")
    (hOk : (createService db false inp).1 = ActionResult.success) :
    (createService db false inp).2.rows
      = db.rows ++ [{ id := db.nextId,
                      name := inp.name.getD "",
                      description := inp.description.getD "",
                      price := parsePrice inp.price,
                      isActive := false,
                      isFeatured := false,
                      createdAt := db.now,
                      updatedAt := db.now }] := by
  have hA' : (inp.isActive == some "true") = false := beq_eq_false_iff_ne.mpr hA
  have hF' : (inp.isFeatured == some "true") = false := beq_eq_false_iff_ne.mpr hF
  by_cases hv :
      (isFalsyStr inp.name || isFalsyStr inp.description || (parsePrice inp.price).isNaN) = true
  · simp [createService, hv] at hOk
  · simp [createService, hv, hA', hF']

/-- C6 amended witness: concrete create with both flags absent. -/
theorem create_flag_defaults_witness :
    (createService ⟨[], 0, 7⟩ false ⟨some "a", some "b", some "10", none, none⟩).2.rows
      = [] ++ [{ id := 0, name := "a", description := "b",
                 price := parsePrice (some "10"), isActive := false, isFeatured := false,
                 createdAt := 7, updatedAt := 7 }] :=
  create_flag_defaults ⟨[], 0, 7⟩ ⟨some "a", some "b", some "10", none, none⟩
    (by decide) (by decide) (by decide)

/-- C7 counterexample: on success `createService` returns the bare
success value (JS `undefined`), not the created record: two creates of
entirely different records return the identical result value, which
therefore carries no record and no id. -/
theorem create_returns_no_record_counterexample :
    (createService ⟨[], 0, 7⟩ false ⟨some "a", some "b", some "10", none, none⟩).1
        = ActionResult.success
    ∧ (createService ⟨[], 0, 7⟩ false
          ⟨some "c", some "d", some "20", some "true", some "true"⟩).1
        = ActionResult.success
    ∧ (createService ⟨[], 0, 7⟩ false ⟨some "a", some "b", some "10", none, none⟩).1
        = (createService ⟨[], 0, 7⟩ false
            ⟨some "c", some "d", some "20", some "true", some "true"⟩).1 := by decide

/-- C7 amended: a successful `createService` returns only the unit
success indicator; nevertheless the record it inserts (under the fresh
id) is retrievable by `getService` and has its five mutable fields equal
to the coerced inputs and `createdAt = updatedAt`. -/
theorem create_roundtrip (db : Db) (inp : FormInput)
    (hFresh : ∀ r ∈ db.rows, r.id ≠ db.nextId)
    (hOk : (createService db false inp).1 = ActionResult.success) :
    ∃ r : Service,
      getService (createService db false inp).2 false db.nextId = Except.ok (some r)
      ∧ r.name = inp.name.getD ""
      ∧ r.description = inp.description.getD ""
      ∧ r.price = parsePrice inp.price
      ∧ r.isActive = (inp.isActive == some "true")
      ∧ r.isFeatured = (inp.isFeatured == some "true")
      ∧ r.createdAt = r.updatedAt := by
  by_cases hv :
      (isFalsyStr inp.name || isFalsyStr inp.description || (parsePrice inp.price).isNaN) = true
  · simp [createService, hv] at hOk
  · refine ⟨{ id := db.nextId,
              name := inp.name.getD "",
              description := inp.description.getD "",
              price := parsePrice inp.price,
              isActive := (inp.isActive == some "true"),
              isFeatured := (inp.isFeatured == some "true"),
              createdAt := db.now,
              updatedAt := db.now }, ?_, rfl, rfl, rfl, rfl, rfl, rfl⟩
    have h1 : db.rows.find? (fun r => r.id == db.nextId) = none := by
      rw [List.find?_eq_none]
      intro x hx
      simp [hFresh x hx]
    simp [createService, hv, getService, List.find?_append, h1]

/-- C7 amended witness: the scenario create from the specification. -/
theorem create_roundtrip_witness :
    (∀ r ∈ (⟨[], 0, 7⟩ : Db).rows, r.id ≠ (⟨[], 0, 7⟩ : Db).nextId)
    ∧ ∃ r : Service,
        getService (createService ⟨[], 0, 7⟩ false
            ⟨some "Consulting", some "1hr session", some "99.50", some "true", some "false"⟩).2
            false 0
          = Except.ok (some r)
        ∧ r.name = (some "Consulting").getD ""
        ∧ r.description = (some "1hr session").getD ""
        ∧ r.price = parsePrice (some "99.50")
        ∧ r.isActive = ((some "true" : Option String) == some "true")
        ∧ r.isFeatured = ((some "false" : Option String) == some "true")
        ∧ r.createdAt = r.updatedAt :=
  ⟨by decide,
   create_roundtrip ⟨[], 0, 7⟩
     ⟨some "Consulting", some "1hr session", some "99.50", some "true", some "false"⟩
     (by decide) (by decide)⟩

/-- C8: deleting a nonexistent id returns the failure result and leaves
the store unchanged (`prisma.service.delete` throws, the `catch`
returns the error object); consequently a second delete of the same id
after a successful first one returns a failure, never a second
success. -/
theorem delete_missing_id_fails (db : Db) (i : Nat) :
    ((∀ r ∈ db.rows, r.id ≠ i) →
        deleteService db false i = (ActionResult.error "Failed to delete service", db))
    ∧ ((deleteService db false i).1 = ActionResult.success →
        (deleteService (deleteService db false i).2 false i).1
          = ActionResult.error "Failed to delete service") := by
  constructor
  · intro h
    have ha : db.rows.any (fun r => r.id == i) = false := by
      simp only [List.any_eq_false]
      intro x hx
      simp [h x hx]
    simp [deleteService, ha]
  · intro h
    by_cases ha : db.rows.any (fun r => r.id == i) = true
    · have h2 : (db.rows.filter (fun r => !(r.id == i))).any (fun r => r.id == i) = false := by
        simp only [List.any_eq_false, List.mem_filter]
        intro x hx
        simp_all
      simp [deleteService, ha, h2]
    · simp [deleteService, ha] at h

/-- C8 witness: delete the only record, then delete the same id again:
the second call fails. -/
theorem delete_missing_id_fails_witness :
    (deleteService
        (deleteService ⟨[Service.mk 1 "A" "d" JsNum.nan true false 5 5], 2, 9⟩ false 1).2
        false 1).1
      = ActionResult.error "Failed to delete service" :=
  (delete_missing_id_fails ⟨[Service.mk 1 "A" "d" JsNum.nan true false 5 5], 2, 9⟩ 1).2
    (by decide)

/-- C9: staged changes at t=0, 500 and 1000 over a 1500 ms debounce
window with no further activity produce exactly one commit, at t=2500,
carrying the value staged at t=1000 (each change having cancelled the
previously scheduled commit); and the deferred commit fires only if the
staged value differs from the committed value at fire time — if the last
change returns the staged value to the committed one, no commit fires at
all. -/
theorem debounce_single_trailing_commit (v0 v1 v2 : String)
    (h0 : v0 ≠ "") (h1 : v1 ≠ v0) (h1e : v1 ≠ "") (h2 : v2 ≠ v1) (h2e : v2 ≠ "") :
    debounceTrace ⟨"", "", none⟩ [(0, v0), (500, v1), (1000, v2)] 2500 = [(2500, v2)]
    ∧ debounceTrace ⟨"", "", none⟩ [(0, v0), (500, v1), (1000, "")] 2500 = [] := by
  have h1e' : "" ≠ v1 := fun he => h1e he.symm
  constructor <;>
    simp [debounceTrace, runDebounce, fireDue, keystroke, h0, h1, h1e', h2, h2e]

/-- C9 witness: the keystroke sequence "a", "ab", "abc". -/
theorem debounce_single_trailing_commit_witness :
    debounceTrace ⟨"", "", none⟩ [(0, "a"), (500, "ab"), (1000, "abc")] 2500
        = [(2500, "abc")]
    ∧ debounceTrace ⟨"", "", none⟩ [(0, "a"), (500, "ab"), (1000, "")] 2500 = [] :=
  debounce_single_trailing_commit "a" "ab" "abc"
    (by decide) (by decide) (by decide) (by decide) (by decide)

end SvcRepo
